import Mathlib

/-!
Verification of the media-chat server (`web_server_ai.py`): a shallow
embedding of its tool-dispatch orchestration, archive search, quality
curation, item-detail lookup and video search pipelines, together with
proofs of the specified properties.

Embedding conventions:
* JSON numbers are modeled as rationals (exact arithmetic).
* Provider HTTP calls are modeled as oracle functions returning
  `Except String response`; the `Except.error` case models a raised
  exception that the source catches and converts to an error dictionary.
* The stable in-place sort `list.sort(key=..., reverse=True)` is modeled
  by `List.mergeSort` with a greater-or-equal comparator, which computes
  the same (unique) stable descending ordering.
* `json.dumps(function_response)` in the tool-result message is modeled
  by carrying the structured value itself in the message.
-/

namespace Cineco

/-- Truthiness of an optional JSON string in the source language:
absent values and the empty string are falsy. -/
def strTruthy : Option String → Bool
  | none => false
  | some s => !(s == "")

/-- String interpolation of an optional string: an absent value prints
as the literal "None". -/
def optStr : Option String → String
  | none => "None"
  | some s => s

/-- The `int(x)` conversion: truncation toward zero. -/
def pyInt (q : ℚ) : ℤ := if q < 0 then ⌈q⌉ else ⌊q⌋

/-- The `round(x, 1)` helper: round half to even at one decimal place. -/
def roundHalfEven (q : ℚ) : ℤ :=
  if q - ⌊q⌋ < 1/2 then ⌊q⌋
  else if 1/2 < q - ⌊q⌋ then ⌊q⌋ + 1
  else if ⌊q⌋ % 2 = 0 then ⌊q⌋ else ⌊q⌋ + 1

/-- `round(x, 1)` on a rational. -/
def pyRound1 (q : ℚ) : ℚ := (roundHalfEven (q * 10) : ℚ) / 10

/-- Source line 314 (and 406, 456):
`(d.get("description", dflt)[:200] + "...") if d.get("description") else
"No description available"`. The slice is by characters. -/
def truncDescWith (dflt : String) (o : Option String) : String :=
  if strTruthy o then String.mk ((o.getD dflt).toList.take 200) ++ "..."
  else "No description available"

/-- The archive variant, whose `get` default is the fallback literal. -/
def truncDesc : Option String → String :=
  truncDescWith "No description available"

/-- The `subject` field of a raw archive record: absent, a bare string,
or a list of strings. -/
inductive SubjectField where
  | missing : SubjectField
  | str : String → SubjectField
  | strList : List String → SubjectField
deriving DecidableEq

/-- Source lines 301-303 and 385-387:
`subjects = d.get("subject", []); if isinstance(subjects, str): subjects = [subjects]`. -/
def coerceSubjects : SubjectField → List String
  | SubjectField.missing => []
  | SubjectField.str s => [s]
  | SubjectField.strList l => l

/-- `' '.join(subjects)`, at the character-list level. -/
def joinWithSpace : List String → List Char
  | [] => []
  | [s] => s.toList
  | s :: rest => s.toList ++ ' ' :: joinWithSpace rest

/-- `' '.join(subjects).lower()`. -/
def lowerJoin (subs : List String) : List Char :=
  (joinWithSpace subs).map Char.toLower

/-- Source lines 306 and 390. -/
def adult_keywords : List String :=
  ["adult", "xxx", "erotica", "pornography", "erotic"]

/-- Source lines 307 and 391:
`any(keyword in ' '.join(subjects).lower() for keyword in adult_keywords)`. -/
def hasAdultContent (subs : List String) : Bool :=
  adult_keywords.any fun k => decide (k.toList <:+: lowerJoin subs)

/-- A raw document of the archive advanced-search response, carrying the
fields requested by the `fl` parameter. `none` marks an absent key. -/
structure ArchiveDoc where
  identifier : Option String
  title : Option String
  description : Option String
  year : Option Int
  downloads : Option ℚ
  num_reviews : Option ℚ
  avg_rating : Option ℚ
  subject : SubjectField
deriving DecidableEq

def thumbnailUrl (id : Option String) : String :=
  "https://archive.org/services/img/" ++ optStr id

def watchUrl (id : Option String) : String :=
  "https://archive.org/details/" ++ optStr id

def embedUrl (id : Option String) : String :=
  "https://archive.org/embed/" ++ optStr id

/-- A normalized item produced by `search_archive`. -/
structure SearchItem where
  identifier : Option String
  title : Option String
  description : String
  year : Option Int
  downloads : ℚ
  avg_rating : ℚ
  thumbnail : String
  watch_url : String
  embed_url : String
  platform : String
  platform_short : String
deriving DecidableEq

/-- One iteration of the result loop of `search_archive` (lines 299-323):
`none` when the record is skipped by the adult-content filter. -/
def searchDoc (d : ArchiveDoc) : Option SearchItem :=
  let subjects := coerceSubjects d.subject
  if hasAdultContent subjects then none
  else some {
    identifier := d.identifier
    title := d.title
    description := truncDesc d.description
    year := d.year
    downloads := d.downloads.getD 0
    avg_rating := pyRound1 (d.avg_rating.getD 0)
    thumbnail := thumbnailUrl d.identifier
    watch_url := watchUrl d.identifier
    embed_url := embedUrl d.identifier
    platform := "Internet Archive"
    platform_short := "IA" }

/-- A normalized curated movie produced by `curate_quality_movies`. -/
structure Movie where
  identifier : Option String
  title : Option String
  description : String
  year : Option Int
  downloads : ℚ
  num_reviews : ℚ
  avg_rating : ℚ
  subjects : List String
  quality_score : ℤ
  thumbnail : String
  watch_url : String
  embed_url : String
  platform : String
  platform_short : String
deriving DecidableEq

/-- One iteration of the result loop of `curate_quality_movies`
(lines 383-419): filter, score and normalize one raw record. -/
def curateDoc (d : ArchiveDoc) : Option Movie :=
  let subjects := coerceSubjects d.subject
  if hasAdultContent subjects then none
  else
    let downloads := d.downloads.getD 0
    let num_reviews := d.num_reviews.getD 0
    let avg_rating := d.avg_rating.getD 0
    let quality_score := downloads * 0.5 + num_reviews * 100 + avg_rating * 1000
    some {
      identifier := d.identifier
      title := d.title
      description := truncDesc d.description
      year := d.year
      downloads := downloads
      num_reviews := num_reviews
      avg_rating := if avg_rating = 0 then 0 else pyRound1 avg_rating
      subjects := subjects.take 5
      quality_score := pyInt quality_score
      thumbnail := thumbnailUrl d.identifier
      watch_url := watchUrl d.identifier
      embed_url := embedUrl d.identifier
      platform := "Internet Archive"
      platform_short := "IA" }

/-- Comparator of the final re-ranking
`curated_movies.sort(key=lambda x: x["quality_score"], reverse=True)`:
a stable descending sort places `a` at or before `b` exactly when
`b.quality_score ≤ a.quality_score`. -/
def movieLe (a b : Movie) : Bool := decide (b.quality_score ≤ a.quality_score)

/-- The stable descending sort of line 422. -/
def sortByQuality (l : List Movie) : List Movie := l.mergeSort movieLe

/-- A raw file record of the archive metadata response. -/
structure RawFile where
  name : Option String
  format : Option String
deriving DecidableEq

/-- A normalized file entry of the item-detail result. -/
structure FileEntry where
  name : Option String
  format : Option String
  url : String
deriving DecidableEq

/-- The archive metadata response body. -/
structure MetadataResponse where
  title : Option String
  description : Option String
  year : Option Int
  files : List RawFile
deriving DecidableEq

/-- The item-detail result dictionary. -/
structure ItemDetails where
  title : Option String
  description : Option String
  year : Option Int
  files : List FileEntry
deriving DecidableEq

/-- The snippet of a raw video-platform search item, with the nested
`thumbnails.high.url` access flattened into one optional field. -/
structure YtSnippet where
  title : Option String
  description : Option String
  channelTitle : Option String
  publishedAt : Option String
  thumbHigh : Option String
deriving DecidableEq

/-- A raw video-platform search item; `videoId` is accessed with
mandatory indexing in the source. -/
structure YtRawItem where
  videoId : String
  snippet : YtSnippet
deriving DecidableEq

/-- The video-platform search response body: an optional top-level
error object (its message) and the item list. -/
structure YtResponse where
  errorMessage : Option String
  items : List YtRawItem
deriving DecidableEq

/-- A normalized video-platform item. -/
structure YtVideo where
  identifier : String
  video_id : String
  title : Option String
  description : String
  channel : Option String
  published_at : Option String
  thumbnail : Option String
  watch_url : String
  embed_url : String
  platform : String
  platform_short : String
deriving DecidableEq

/-- Normalization of one raw video-platform item (lines 448-464). -/
def ytVideoOf (item : YtRawItem) : YtVideo :=
  { identifier := item.videoId
    video_id := item.videoId
    title := item.snippet.title
    description := truncDescWith "" item.snippet.description
    channel := item.snippet.channelTitle
    published_at := item.snippet.publishedAt
    thumbnail := item.snippet.thumbHigh
    watch_url := "https://www.youtube.com/watch?v=" ++ item.videoId
    embed_url := "https://www.youtube.com/embed/" ++ item.videoId
    platform := "YouTube"
    platform_short := "YT" }

/-- The value a tool function returns: one of the three list shapes, the
detail dictionary, or an error dictionary. -/
inductive ToolResult where
  | archiveItems : List SearchItem → ToolResult
  | movies : List Movie → ToolResult
  | ytVideos : List YtVideo → ToolResult
  | details : ItemDetails → ToolResult
  | error : String → ToolResult
deriving DecidableEq

/-- `isinstance(function_response, list)`. -/
def ToolResult.isList : ToolResult → Bool
  | ToolResult.archiveItems _ => true
  | ToolResult.movies _ => true
  | ToolResult.ytVideos _ => true
  | _ => false

/-- The enhanced archive query of lines 277-284. -/
def enhancedQuery (query : String) : String :=
  "(" ++ query ++ ") AND mediatype:movies AND format:\"h.264\" AND " ++
    "-subject:\"adult\" AND -subject:\"erotica\" AND -subject:\"xxx\""

/-- `search_archive` (lines 271-327). The oracle receives the enhanced
query string; a 15-row cap and download-sort happen provider-side. -/
def search_archive (fetch : String → Except String (List ArchiveDoc))
    (query : String) : ToolResult :=
  match fetch (enhancedQuery query) with
  | Except.error e => ToolResult.error e
  | Except.ok docs => ToolResult.archiveItems (docs.filterMap searchDoc)

/-- `get_item_details` (lines 329-353). -/
def get_item_details (fetch : String → Except String MetadataResponse)
    (identifier : String) : ToolResult :=
  match fetch identifier with
  | Except.error e => ToolResult.error e
  | Except.ok data => ToolResult.details {
      title := data.title
      description := data.description
      year := data.year
      files := (data.files.take 10).map fun f =>
        { name := f.name
          format := f.format
          url := "https://archive.org/download/" ++ identifier ++ "/" ++
            optStr f.name } }

/-- The curation query of lines 360-367. -/
def curateQuery (min_views : Int) : String :=
  "mediatype:movies AND format:\"h.264\" AND -subject:\"adult\" AND " ++
    "-subject:\"erotica\" AND -subject:\"xxx\" AND downloads:[" ++
    toString min_views ++ " TO 999999999]"

/-- `curate_quality_movies` (lines 355-427), with the signature defaults
`min_views=5000, limit=20`. The oracle receives the query string and the
row cap `limit`. -/
def curate_quality_movies (fetch : String → Nat → Except String (List ArchiveDoc))
    (min_views : optParam Int 5000) (limit : optParam Nat 20) : ToolResult :=
  match fetch (curateQuery min_views) limit with
  | Except.error e => ToolResult.error e
  | Except.ok docs => ToolResult.movies (sortByQuality (docs.filterMap curateDoc))

/-- `search_youtube` (lines 429-468), with the signature default
`max_results=10`. The oracle receives the query and the result cap. -/
def search_youtube (fetch : String → Nat → Except String YtResponse)
    (query : String) (max_results : optParam Nat 10) : ToolResult :=
  match fetch query max_results with
  | Except.error e => ToolResult.error e
  | Except.ok data =>
    match data.errorMessage with
    | some m => ToolResult.error m
    | none => ToolResult.ytVideos (data.items.map ytVideoOf)

/-- The provider oracles available to the dispatcher. -/
structure Providers where
  archive : String → Except String (List ArchiveDoc)
  metadata : String → Except String MetadataResponse
  curated : String → Nat → Except String (List ArchiveDoc)
  youtube : String → Nat → Except String YtResponse

/-- The parsed JSON arguments of a tool invocation; only the keys the
dispatcher reads are modeled, each optional. -/
structure ToolArgs where
  query : Option String
  identifier : Option String
  min_views : Option Int
  limit : Option Nat
  max_results : Option Nat
deriving DecidableEq

/-- The dispatcher chain of lines 207-220. `none` models an uncaught
KeyError on a missing mandatory argument, which aborts the request;
`Option.map` mirrors mandatory `function_args[...]` indexing and
`Option.getD` mirrors `function_args.get(..., default)`. -/
def dispatch (p : Providers) (fname : String) (args : ToolArgs) :
    Option ToolResult :=
  if fname = "search_archive" then
    args.query.map fun q => search_archive p.archive q
  else if fname = "get_item_details" then
    args.identifier.map fun i => get_item_details p.metadata i
  else if fname = "curate_quality_movies" then
    some (curate_quality_movies p.curated (args.min_views.getD 10000)
      (args.limit.getD 20))
  else if fname = "search_youtube" then
    args.query.map fun q => search_youtube p.youtube q (args.max_results.getD 10)
  else
    some (ToolResult.error "Unknown function")

/-- A tool invocation as delivered by the chat model: correlation id,
function name, the raw arguments text, and its parsed form. -/
structure ToolInvocation where
  id : String
  name : String
  rawArguments : String
  args : ToolArgs
deriving DecidableEq

/-- A message of the conversation. The tool-result message carries the
dispatcher output value directly, modeling its JSON serialization. -/
inductive ChatMsg where
  | plain : String → Option String → ChatMsg
  | assistantToolCall : Option String → String → String → String → ChatMsg
  | toolResult : String → ToolResult → ChatMsg
deriving DecidableEq

/-- A reply of the chat model: text content and requested tool calls. -/
structure ModelReply where
  content : Option String
  tool_calls : List ToolInvocation

/-- The response body of the chat endpoint. -/
structure ChatResult where
  response : Option String
  data : Option ToolResult
deriving DecidableEq

/-- The fixed system persona prompt. Its wording plays no role in the
orchestration logic, so the long literal is abbreviated here. -/
def systemPrompt : String :=
  "You are Cineco - a friend who really gets film and loves helping " ++
    "people find something perfect to watch."

/-- Lines 184-189: system prompt followed by the caller history. -/
def buildMessages (history : List ChatMsg) : List ChatMsg :=
  ChatMsg.plain "system" (some systemPrompt) :: history

/-- The orchestration core of `handle_chat` (lines 191-258), with the
two model calls passed as functions. `none` models an uncaught exception
surfacing as an HTTP 500 response. -/
def handle_chat (firstModel : List ChatMsg → ModelReply)
    (secondModel : List ChatMsg → Option String)
    (p : Providers) (history : List ChatMsg) : Option ChatResult :=
  let messages := buildMessages history
  let reply := firstModel messages
  match reply.tool_calls with
  | [] => some { response := reply.content, data := none }
  | tc :: _ =>
    match dispatch p tc.name tc.args with
    | none => none
    | some res =>
      let messages2 := messages ++
        [ChatMsg.assistantToolCall reply.content tc.id tc.name tc.rawArguments,
         ChatMsg.toolResult tc.id res]
      some { response := secondModel messages2,
             data := if res.isList then some res else none }

/-! Concrete inputs used by the witness theorems. -/

/-- A record carrying the worked numeric example of the specification. -/
def exampleDoc : ArchiveDoc :=
  { identifier := none, title := none, description := none, year := none,
    downloads := some 20000, num_reviews := some 30, avg_rating := some 4.5,
    subject := SubjectField.missing }

/-- The normalized movie produced from `exampleDoc`. -/
def exampleMovie : Movie :=
  { identifier := none, title := none, description := "No description available",
    year := none, downloads := 20000, num_reviews := 30, avg_rating := 4.5,
    subjects := [], quality_score := 17500,
    thumbnail := "https://archive.org/services/img/None",
    watch_url := "https://archive.org/details/None",
    embed_url := "https://archive.org/embed/None",
    platform := "Internet Archive", platform_short := "IA" }

/-- A minimal record, identifier "a", every numeric field absent. -/
def docA : ArchiveDoc :=
  { identifier := some "a", title := none, description := none, year := none,
    downloads := none, num_reviews := none, avg_rating := none,
    subject := SubjectField.missing }

/-- A minimal record, identifier "b", every numeric field absent. -/
def docB : ArchiveDoc :=
  { identifier := some "b", title := none, description := none, year := none,
    downloads := none, num_reviews := none, avg_rating := none,
    subject := SubjectField.missing }

/-- The normalized movie produced from `docA`. -/
def movieA : Movie :=
  { identifier := some "a", title := none,
    description := "No description available", year := none, downloads := 0,
    num_reviews := 0, avg_rating := 0, subjects := [], quality_score := 0,
    thumbnail := "https://archive.org/services/img/a",
    watch_url := "https://archive.org/details/a",
    embed_url := "https://archive.org/embed/a",
    platform := "Internet Archive", platform_short := "IA" }

/-- The normalized movie produced from `docB`. -/
def movieB : Movie :=
  { identifier := some "b", title := none,
    description := "No description available", year := none, downloads := 0,
    num_reviews := 0, avg_rating := 0, subjects := [], quality_score := 0,
    thumbnail := "https://archive.org/services/img/b",
    watch_url := "https://archive.org/details/b",
    embed_url := "https://archive.org/embed/b",
    platform := "Internet Archive", platform_short := "IA" }

/-- A record tagged with a disallowed subject keyword. -/
def adultDoc : ArchiveDoc :=
  { identifier := some "x", title := none, description := none, year := none,
    downloads := none, num_reviews := none, avg_rating := none,
    subject := SubjectField.str "XXX Collection" }

/-- A record whose subject is a bare string. -/
def strSubjectDoc : ArchiveDoc :=
  { identifier := some "c", title := none, description := none, year := none,
    downloads := none, num_reviews := none, avg_rating := none,
    subject := SubjectField.str "Classic" }

/-- Provider oracles that always fail. -/
def trivialProviders : Providers :=
  { archive := fun _ => Except.error "offline"
    metadata := fun _ => Except.error "offline"
    curated := fun _ _ => Except.error "offline"
    youtube := fun _ _ => Except.error "offline" }

/-- Parsed arguments with no keys at all. -/
def emptyArgs : ToolArgs := ⟨none, none, none, none, none⟩

/-- Parsed arguments carrying only an identifier. -/
def idArgs : ToolArgs := ⟨none, some "item1", none, none, none⟩

/-- A 500-character description. -/
def s500 : String := String.mk (List.replicate 500 'a')

/-! Helper lemmas. -/

theorem movieLe_trans : ∀ a b c : Movie, movieLe a b = true →
    movieLe b c = true → movieLe a c = true := by
  intro a b c hab hbc
  simp only [movieLe, decide_eq_true_eq] at *
  exact le_trans hbc hab

theorem movieLe_total : ∀ a b : Movie, (movieLe a b || movieLe b a) = true := by
  intro a b
  simp only [movieLe, Bool.or_eq_true, decide_eq_true_eq]
  exact le_total b.quality_score a.quality_score

/-- Joining an initial segment of the subject list yields an initial
segment of the joined subject list. -/
theorem joinWithSpace_take (n : ℕ) (l : List String) :
    joinWithSpace (l.take n) <+: joinWithSpace l := by
  induction l generalizing n with
  | nil => simp
  | cons s rest ih =>
    cases n with
    | zero => exact ⟨joinWithSpace (s :: rest), rfl⟩
    | succ m =>
      cases rest with
      | nil => simp
      | cons r rs =>
        cases m with
        | zero =>
          exact ⟨' ' :: joinWithSpace (r :: rs), by simp [joinWithSpace]⟩
        | succ k =>
          obtain ⟨t, ht⟩ := ih (k + 1)
          refine ⟨t, ?_⟩
          have ht' : joinWithSpace (r :: rs.take k) ++ t = joinWithSpace (r :: rs) := by
            simpa using ht
          show joinWithSpace (s :: r :: rs.take k) ++ t
            = joinWithSpace (s :: r :: rs)
          have h1 : joinWithSpace (s :: r :: rs.take k)
              = s.toList ++ ' ' :: joinWithSpace (r :: rs.take k) := rfl
          have h2 : joinWithSpace (s :: r :: rs)
              = s.toList ++ ' ' :: joinWithSpace (r :: rs) := rfl
          rw [h1, h2, ← ht']
          simp

/-- A character-list substring of an initial segment is a substring of
the whole list. -/
theorem subFromInit {k j₁ j₂ : List Char} (hk : k <:+: j₁) (hp : j₁ <+: j₂) :
    k <:+: j₂ := by
  obtain ⟨s, t, hst⟩ := hk
  obtain ⟨u, hu⟩ := hp
  exact ⟨s, t ++ u, by rw [← hu, ← hst]; simp⟩

/-- Mapping preserves initial segments of character lists. -/
theorem mapInit (f : Char → Char) {l₁ l₂ : List Char} (h : l₁ <+: l₂) :
    l₁.map f <+: l₂.map f := by
  obtain ⟨t, ht⟩ := h
  exact ⟨t.map f, by rw [← List.map_append, ht]⟩

/-- If a truncated subject list trips the keyword filter, so does the
full subject list. -/
theorem hasAdultContent_take (n : ℕ) (subs : List String)
    (h : hasAdultContent (subs.take n) = true) : hasAdultContent subs = true := by
  simp only [hasAdultContent, List.any_eq_true, decide_eq_true_eq] at h ⊢
  obtain ⟨k, hk, hinf⟩ := h
  refine ⟨k, hk, ?_⟩
  have hpre : lowerJoin (subs.take n) <+: lowerJoin subs :=
    mapInit Char.toLower (joinWithSpace_take n subs)
  exact subFromInit hinf hpre

theorem hasAdultContent_nil : hasAdultContent [] = false := by decide

/-- Evaluation of the curation step on `exampleDoc`. -/
theorem curateDoc_exampleDoc : curateDoc exampleDoc = some exampleMovie := by
  simp only [curateDoc, exampleDoc, exampleMovie, coerceSubjects,
    hasAdultContent_nil, Bool.false_eq_true, if_false, Option.getD_some,
    truncDesc, truncDescWith, strTruthy, thumbnailUrl, watchUrl, embedUrl,
    optStr, Option.some.injEq]
  norm_num [pyInt, pyRound1, roundHalfEven]
  exact ⟨by decide, by decide, by decide⟩

/-- Evaluation of the curation step on `docA`. -/
theorem curateDoc_docA : curateDoc docA = some movieA := by
  simp only [curateDoc, docA, movieA, coerceSubjects, hasAdultContent_nil,
    Bool.false_eq_true, if_false, Option.getD_none, truncDesc, truncDescWith,
    strTruthy, thumbnailUrl, watchUrl, embedUrl, optStr, Option.some.injEq]
  norm_num [pyInt]
  exact ⟨by decide, by decide, by decide⟩

/-- Evaluation of the curation step on `docB`. -/
theorem curateDoc_docB : curateDoc docB = some movieB := by
  simp only [curateDoc, docB, movieB, coerceSubjects, hasAdultContent_nil,
    Bool.false_eq_true, if_false, Option.getD_none, truncDesc, truncDescWith,
    strTruthy, thumbnailUrl, watchUrl, embedUrl, optStr, Option.some.injEq]
  norm_num [pyInt]
  exact ⟨by decide, by decide, by decide⟩

/-! The claims. -/

/-- C1: for every provider record with downloads d, reviews r and rating a,
each read with default 0 when absent, the curation step computes
quality_score as the floor of d * 0.5 + r * 100 + a * 1000, truncated to
an integer; in particular downloads 20000, reviews 30 and rating 4.5
yield score 17500. -/
theorem quality_score_spec :
    (∀ (d : ArchiveDoc) (m : Movie), curateDoc d = some m →
        0 ≤ d.downloads.getD 0 → 0 ≤ d.num_reviews.getD 0 →
        0 ≤ d.avg_rating.getD 0 →
        m.quality_score =
          ⌊d.downloads.getD 0 * 0.5 + d.num_reviews.getD 0 * 100 +
            d.avg_rating.getD 0 * 1000⌋)
  ∧ ∀ (d : ArchiveDoc) (m : Movie), curateDoc d = some m →
      d.downloads = some 20000 → d.num_reviews = some 30 →
      d.avg_rating = some 4.5 → m.quality_score = 17500 := by
  constructor
  · intro d m h hd hr ha
    simp only [curateDoc] at h
    by_cases hA : hasAdultContent (coerceSubjects d.subject) = true
    · simp [hA] at h
    · rw [Bool.not_eq_true] at hA
      simp only [hA, Bool.false_eq_true, if_false, Option.some.injEq] at h
      subst h
      show pyInt _ = _
      have hq : (0 : ℚ) ≤ d.downloads.getD 0 * 0.5 +
          d.num_reviews.getD 0 * 100 + d.avg_rating.getD 0 * 1000 := by
        nlinarith
      unfold pyInt
      rw [if_neg (not_lt.mpr hq)]
  · intro d m h h1 h2 h3
    simp only [curateDoc] at h
    by_cases hA : hasAdultContent (coerceSubjects d.subject) = true
    · simp [hA] at h
    · rw [Bool.not_eq_true] at hA
      simp only [hA, Bool.false_eq_true, if_false, Option.some.injEq] at h
      subst h
      show pyInt _ = _
      rw [h1, h2, h3]
      norm_num [pyInt]

/-- Witness for C1 at the worked example of the specification. -/
theorem quality_score_w : exampleMovie.quality_score = 17500 :=
  quality_score_spec.2 exampleDoc exampleMovie curateDoc_exampleDoc rfl rfl rfl

/-- C2: for every provider response, the curation operation returns its
surviving records re-sorted by quality_score descending: adjacent scores
are non-increasing, and ties keep the provider-returned order (as a
stable sort, any two equal-score movies appear in the output in their
input order). -/
theorem curation_sorted_stable
    (fetch : String → Nat → Except String (List ArchiveDoc))
    (min_views : Int) (limit : Nat) (docs : List ArchiveDoc)
    (hfetch : fetch (curateQuery min_views) limit = Except.ok docs) :
    curate_quality_movies fetch min_views limit
      = ToolResult.movies (sortByQuality (docs.filterMap curateDoc))
  ∧ List.Chain' (fun a b => b.quality_score ≤ a.quality_score)
      (sortByQuality (docs.filterMap curateDoc))
  ∧ ∀ a b : Movie, a.quality_score = b.quality_score →
      List.Sublist [a, b] (docs.filterMap curateDoc) →
      List.Sublist [a, b] (sortByQuality (docs.filterMap curateDoc)) := by
  refine ⟨by simp [curate_quality_movies, hfetch], ?_, ?_⟩
  · have hp := List.sorted_mergeSort movieLe_trans movieLe_total
      (docs.filterMap curateDoc)
    have hp' := hp.imp fun hab => by
      simpa [movieLe, decide_eq_true_eq] using hab
    exact hp'.chain'
  · intro a b hs hsub
    have hab : movieLe a b = true := by simp [movieLe, hs]
    exact List.pair_sublist_mergeSort movieLe_trans movieLe_total hab hsub

/-- Witness for C2: two tied movies keep their provider order. -/
theorem curation_sorted_stable_w :
    List.Sublist [movieA, movieB] (sortByQuality ([docA, docB].filterMap curateDoc)) := by
  have h := (curation_sorted_stable (fun _ _ => Except.ok [docA, docB])
    10000 20 [docA, docB] rfl).2.2 movieA movieB rfl
  apply h
  simp [List.filterMap_cons, curateDoc_docA, curateDoc_docB]

/-- C3: a record whose space-joined subject tags contain a disallowed
keyword (case-insensitively) is excluded by both archive search and
quality curation; a record containing none is included; and every movie
in a curated result set has no disallowed keyword in its (truncated)
subject tags. -/
theorem content_filter_spec :
    (∀ d : ArchiveDoc, hasAdultContent (coerceSubjects d.subject) = true →
        curateDoc d = none ∧ searchDoc d = none)
  ∧ (∀ (docs : List ArchiveDoc) (d : ArchiveDoc), d ∈ docs →
        hasAdultContent (coerceSubjects d.subject) = false →
        (∃ m, curateDoc d = some m ∧ m ∈ sortByQuality (docs.filterMap curateDoc))
      ∧ ∃ r, searchDoc d = some r ∧ r ∈ docs.filterMap searchDoc)
  ∧ ∀ (docs : List ArchiveDoc) (m : Movie),
      m ∈ sortByQuality (docs.filterMap curateDoc) →
      hasAdultContent m.subjects = false := by
  refine ⟨?_, ?_, ?_⟩
  · intro d hA
    constructor <;> simp [curateDoc, searchDoc, hA]
  · intro docs d hmem hA
    constructor
    · obtain ⟨m, hm⟩ : ∃ m, curateDoc d = some m := by
        simp [curateDoc, hA]
      refine ⟨m, hm, ?_⟩
      simp only [sortByQuality, List.mem_mergeSort, List.mem_filterMap]
      exact ⟨d, hmem, hm⟩
    · obtain ⟨r, hr⟩ : ∃ r, searchDoc d = some r := by
        simp [searchDoc, hA]
      refine ⟨r, hr, ?_⟩
      simp only [List.mem_filterMap]
      exact ⟨d, hmem, hr⟩
  · intro docs m hm
    simp only [sortByQuality, List.mem_mergeSort, List.mem_filterMap] at hm
    obtain ⟨d, _, hd⟩ := hm
    simp only [curateDoc] at hd
    by_cases hA : hasAdultContent (coerceSubjects d.subject) = true
    · simp [hA] at hd
    · rw [Bool.not_eq_true] at hA
      simp only [hA, Bool.false_eq_true, if_false, Option.some.injEq] at hd
      subst hd
      show hasAdultContent ((coerceSubjects d.subject).take 5) = false
      by_contra hcon
      rw [Bool.not_eq_false] at hcon
      rw [hasAdultContent_take 5 (coerceSubjects d.subject) hcon] at hA
      exact Bool.noConfusion hA

/-- Witness for C3: a record tagged "XXX Collection" is excluded by both
pipelines, and a clean record makes it into the curated output. -/
theorem content_filter_w :
    (curateDoc adultDoc = none ∧ searchDoc adultDoc = none)
  ∧ ∃ m, curateDoc docA = some m ∧ m ∈ sortByQuality ([docA].filterMap curateDoc) :=
  ⟨content_filter_spec.1 adultDoc (by decide),
   (content_filter_spec.2.1 [docA] docA (by simp) (by decide)).1⟩

/-- C4: a 500-character provider description is normalized to exactly its
200-character prefix followed by the literal "...", and a missing
description yields the literal "No description available" with no
ellipsis appended. -/
theorem description_truncation_spec :
    (∀ (dflt s : String), s.toList.length = 500 →
        truncDescWith dflt (some s) = String.mk (s.toList.take 200) ++ "...")
  ∧ ∀ dflt, truncDescWith dflt none = "No description available" := by
  constructor
  · intro dflt s hlen
    have hs : ¬s = "" := by
      intro hcon
      subst hcon
      exact absurd hlen (by decide)
    simp [truncDescWith, strTruthy, hs]
  · intro dflt
    rfl

/-- Witness for C4 at a concrete 500-character description. -/
theorem description_truncation_w :
    truncDescWith "No description available" (some s500)
      = String.mk (s500.toList.take 200) ++ "..." :=
  description_truncation_spec.1 "No description available" s500
    (by show (List.replicate 500 'a').length = 500; rw [List.length_replicate])

/-- C5: an invocation whose name matches none of the four tools is
dispatched to the value error "Unknown function" (no exception), and the
orchestrator still makes the second model call with that value as the
serialized tool result, returning its reply with data null. -/
theorem unknown_function_spec (fname : String)
    (h1 : fname ≠ "search_archive") (h2 : fname ≠ "get_item_details")
    (h3 : fname ≠ "curate_quality_movies") (h4 : fname ≠ "search_youtube")
    (p : Providers) (args : ToolArgs) (c : Option String) (tid raw : String)
    (secondModel : List ChatMsg → Option String) (history : List ChatMsg) :
    dispatch p fname args = some (ToolResult.error "Unknown function")
  ∧ handle_chat (fun _ => ⟨c, [⟨tid, fname, raw, args⟩]⟩) secondModel p history
      = some { response := secondModel (buildMessages history ++
                 [ChatMsg.assistantToolCall c tid fname raw,
                  ChatMsg.toolResult tid (ToolResult.error "Unknown function")]),
               data := none } := by
  have hd : dispatch p fname args = some (ToolResult.error "Unknown function") := by
    simp [dispatch, h1, h2, h3, h4]
  exact ⟨hd, by simp [handle_chat, hd, ToolResult.isList]⟩

/-- Witness for C5 at the unknown tool name "frobnicate". -/
theorem unknown_function_w :
    dispatch trivialProviders "frobnicate" emptyArgs
      = some (ToolResult.error "Unknown function") :=
  (unknown_function_spec "frobnicate" (by decide) (by decide) (by decide)
    (by decide) trivialProviders emptyArgs none "t1" ""
    (fun _ => some "ok") []).1

/-- C6: a provider-call failure inside any of the four tool functions is
returned as an in-band error value rather than propagated, and a video
search response carrying an error object is surfaced as that error
message before any normalization. -/
theorem provider_failure_spec (e msg : String) :
    (∀ q, search_archive (fun _ => Except.error e) q = ToolResult.error e)
  ∧ (∀ i, get_item_details (fun _ => Except.error e) i = ToolResult.error e)
  ∧ (∀ (mv : Int) (lim : Nat),
        curate_quality_movies (fun _ _ => Except.error e) mv lim
          = ToolResult.error e)
  ∧ (∀ q (mr : Nat),
        search_youtube (fun _ _ => Except.error e) q mr = ToolResult.error e)
  ∧ ∀ q (mr : Nat) (items : List YtRawItem),
      search_youtube (fun _ _ => Except.ok ⟨some msg, items⟩) q mr
        = ToolResult.error msg :=
  ⟨fun _ => rfl, fun _ => rfl, fun _ _ => rfl, fun _ _ => rfl,
   fun _ _ _ => rfl⟩

/-- C7: when the model reply carries several tool invocations, only the
first is dispatched; the rest never influence the outcome. -/
theorem first_invocation_only (c : Option String) (tc : ToolInvocation)
    (rest : List ToolInvocation) (p : Providers)
    (secondModel : List ChatMsg → Option String) (history : List ChatMsg) :
    handle_chat (fun _ => ⟨c, tc :: rest⟩) secondModel p history
      = handle_chat (fun _ => ⟨c, [tc]⟩) secondModel p history := rfl

/-- C8: the returned data field equals the dispatcher output exactly when
that output is a list, and is null otherwise; detail objects and error
values yield data null while the response text comes from the second
model reply. -/
theorem data_field_spec (c : Option String) (tc : ToolInvocation)
    (p : Providers) (secondModel : List ChatMsg → Option String)
    (history : List ChatMsg) (res : ToolResult)
    (h : dispatch p tc.name tc.args = some res) :
    handle_chat (fun _ => ⟨c, [tc]⟩) secondModel p history
      = some { response := secondModel (buildMessages history ++
                 [ChatMsg.assistantToolCall c tc.id tc.name tc.rawArguments,
                  ChatMsg.toolResult tc.id res]),
               data := if res.isList then some res else none }
  ∧ (∀ d, res = ToolResult.details d →
        (if res.isList then some res else none) = none)
  ∧ ∀ m, res = ToolResult.error m →
      (if res.isList then some res else none) = none := by
  refine ⟨by simp [handle_chat, h], ?_, ?_⟩
  · rintro d rfl
    rfl
  · rintro m rfl
    rfl

/-- Witness for C8: an item-detail call that fails yields an error
dictionary, hence data null, while the second reply is returned. -/
theorem data_field_w :
    handle_chat (fun _ => ⟨none, [⟨"t1", "get_item_details", "", idArgs⟩]⟩)
        (fun _ => some "ok") trivialProviders []
      = some { response := some "ok", data := none } := by
  have h := (data_field_spec none ⟨"t1", "get_item_details", "", idArgs⟩
    trivialProviders (fun _ => some "ok") [] (ToolResult.error "offline")
    (by rfl)).1
  simpa using h

/-- C9: when the model omits min_views (and limit), the chat dispatcher
supplies 10000 (and 20) to the curation function, whereas the curation
function called directly without arguments defaults min_views to 5000. -/
theorem curation_default_spec (p : Providers) (args : ToolArgs)
    (hmv : args.min_views = none) (hlim : args.limit = none) :
    dispatch p "curate_quality_movies" args
      = some (curate_quality_movies p.curated 10000 20)
  ∧ ∀ fetch : String → Nat → Except String (List ArchiveDoc),
      curate_quality_movies fetch = curate_quality_movies fetch 5000 20 := by
  refine ⟨?_, fun fetch => rfl⟩
  simp [dispatch, hmv, hlim]

/-- Witness for C9 at arguments carrying no keys. -/
theorem curation_default_w :
    dispatch trivialProviders "curate_quality_movies" emptyArgs
      = some (curate_quality_movies trivialProviders.curated 10000 20) :=
  (curation_default_spec trivialProviders emptyArgs rfl rfl).1

/-- C10: a record whose subject field is a bare string is processed, by
both archive search and quality curation, exactly as the same record
with a one-element subject list. -/
theorem string_subject_spec (s : String) (d : ArchiveDoc)
    (h : d.subject = SubjectField.str s) :
    curateDoc d = curateDoc { d with subject := SubjectField.strList [s] }
  ∧ searchDoc d = searchDoc { d with subject := SubjectField.strList [s] } := by
  constructor <;> simp [curateDoc, searchDoc, h, coerceSubjects]

/-- Witness for C10 at a bare-string subject "Classic". -/
theorem string_subject_w :
    curateDoc strSubjectDoc
      = curateDoc { strSubjectDoc with subject := SubjectField.strList ["Classic"] } :=
  (string_subject_spec "Classic" strSubjectDoc rfl).1

end Cineco
